import Mathlib

/-!
Shallow embedding of the validation/policy-gate engine of the repository:
the batch CI validator `/.github/scripts/validate-config.py` (namespace
`Batch`) and the per-write hook validator
`/hooks/validators/skill_frontmatter_validator.py` (namespace `Hook`).

External collaborators are abstracted as parameters:
* the filesystem is a structure `FS` of pure functions (existence,
  directory listing, file reads that may fail, and the outcome of
  `compile()` on a script's text);
* `yaml.safe_load` is a parameter `yaml : String → YamlResult` returning
  either a parsed frontmatter value or a parse-error message;
* `json.loads` + `jsonschema.validate` against one fixed schema are a
  parameter `check : String → JsonOutcome`.

Python dynamic values occurring in frontmatter are modelled by `PyVal`
(scalars) and `Fm` (the result of `yaml.safe_load`: `None`, a mapping,
a bare string, a list, or some other scalar carrying its truthiness).
Operations that can raise in Python (`in` on a non-container,
`len` of a non-sized value, `.get` on a non-dict, reading a file) return
`Except PyExc _`; an uncaught exception in the Python source is an
`Except.error` result of the corresponding Lean function.
-/

set_option autoImplicit false

/-- Single-quote character as a string (used inside error messages). -/
def sqc : String := String.singleton (Char.ofNat 39)

/-- Boolean prefix test on lists. -/
def prefixB {α : Type} [DecidableEq α] : List α → List α → Bool
  | [], _ => true
  | _ :: _, [] => false
  | a :: as, b :: bs => if a = b then prefixB as bs else false

/-- Boolean suffix test on lists. -/
def suffixB {α : Type} [DecidableEq α] (p l : List α) : Bool :=
  prefixB p.reverse l.reverse

/-- Boolean contiguous-sublist test on lists. -/
def sublistB {α : Type} [DecidableEq α] (n : List α) : List α → Bool
  | [] => n.isEmpty
  | b :: bs => prefixB n (b :: bs) || sublistB n bs

/-- Python `s.startswith(p)`. -/
def strStartsWith (s p : String) : Bool := prefixB p.data s.data

/-- Python `s.endswith(p)`. -/
def strEndsWith (s p : String) : Bool := suffixB p.data s.data

/-- Python `n in h` for strings (substring test). -/
def strContains (h n : String) : Bool := sublistB n.data h.data

/-- Split a character list at the first occurrence of the separator,
returning the part before it and the part after it. -/
def breakOn (sep : List Char) : List Char → Option (List Char × List Char)
  | [] => none
  | c :: cs =>
    if prefixB sep (c :: cs) then some ([], (c :: cs).drop sep.length)
    else
      match breakOn sep cs with
      | none => none
      | some (pre, post) => some (c :: pre, post)

/-- Core of Python `str.split(sep, maxsplit)` over character lists:
the first argument bounds the number of splits performed. -/
def splitCore (sep : List Char) : Nat → List Char → List (List Char)
  | 0, cs => [cs]
  | Nat.succ k, cs =>
    match breakOn sep cs with
    | none => [cs]
    | some (pre, post) => pre :: splitCore sep k post

/-- Python `s.split(sep, maxsplit)` for a non-empty separator. -/
def pySplit (s sep : String) (maxsplit : Nat) : List String :=
  (splitCore sep.data maxsplit s.data).map (fun cs => String.mk cs)

/-- Python `s.split(sep)` (unlimited splits) for a non-empty separator. -/
def pySplitAll (s sep : String) : List String :=
  (splitCore sep.data s.data.length s.data).map (fun cs => String.mk cs)

/-- A filesystem path, as its list of components (`pathlib.PurePath.parts`,
with empty components dropped). -/
abbrev FPath := List String

/-- Build a `FPath` from a Python path string. -/
def pathOfString (s : String) : FPath :=
  (pySplitAll s "/").filter (fun c => c ≠ "")

/-- Python `str(path)` for a relative path. -/
def pathStr (p : FPath) : String := String.intercalate "/" p

/-- Python `path.name` (final component, `""` for an empty path). -/
def pathName (p : FPath) : String :=
  match p.getLast? with
  | some n => n
  | none => ""

/-- Python `path.parent / ref` where `ref` is a path string that may
contain several components. -/
def joinRel (p : FPath) (ref : String) : FPath := p ++ pathOfString ref

/-- Index of the last `'.'` in a character list, if any. -/
def lastDotIdx : List Char → Option Nat
  | [] => none
  | c :: cs =>
    match lastDotIdx cs with
    | some i => some (i + 1)
    | none => if c = '.' then some 0 else none

/-- Python `path.suffix` computed from the final component: the last
dot-suffix, unless the dot is the first or the last character. -/
def pySuffix (n : String) : String :=
  match lastDotIdx n.data with
  | none => ""
  | some i =>
    if 0 < i ∧ i < n.data.length - 1 then String.mk (n.data.drop i) else ""

/-- A Python scalar value as it can appear inside parsed frontmatter.
Nested mappings/sequences are not needed by any validator rule and are
not modelled. -/
inductive PyVal where
  | vstr (s : String)
  | vint (n : Int)
  | vbool (b : Bool)
  | vnone
deriving DecidableEq, BEq

/-- Result of `yaml.safe_load` on a frontmatter block: `None`, a mapping,
a bare string, a sequence, or another scalar carrying its truthiness. -/
inductive Fm where
  | fnone
  | dict (entries : List (String × PyVal))
  | fstr (s : String)
  | flist (xs : List PyVal)
  | fother (truthiness : Bool)
deriving DecidableEq

/-- A Python exception escaping a validator (uncaught in the source). -/
inductive PyExc where
  | oserror (msg : String)
  | typeError
  | attributeError
  | keyError
deriving DecidableEq

/-- Python truthiness of a frontmatter value (`if not fm`). -/
def truthy : Fm → Bool
  | .fnone => false
  | .dict es => !es.isEmpty
  | .fstr s => decide (s ≠ "")
  | .flist xs => !xs.isEmpty
  | .fother t => t

/-- Python truthiness of a scalar value. -/
def truthyVal : PyVal → Bool
  | .vstr s => decide (s ≠ "")
  | .vint n => decide (n ≠ 0)
  | .vbool b => b
  | .vnone => false

/-- Python `k in fm`: key membership for a mapping, substring test for a
string, element membership for a list; raises `TypeError` otherwise. -/
def pyContains (fm : Fm) (k : String) : Except PyExc Bool :=
  match fm with
  | .dict es => .ok (es.lookup k).isSome
  | .fstr s => .ok (strContains s k)
  | .flist xs => .ok (xs.contains (PyVal.vstr k))
  | .fnone => .error PyExc.typeError
  | .fother _ => .error PyExc.typeError

/-- Python `fm.get(k, default)`: only mappings have `.get`;
everything else raises `AttributeError`. -/
def pyGet (fm : Fm) (k : String) (default : PyVal) : Except PyExc PyVal :=
  match fm with
  | .dict es => .ok ((es.lookup k).getD default)
  | _ => .error PyExc.attributeError

/-- Python `fm[k]` for a string key: mapping lookup (raising `KeyError`
when absent); raises `TypeError` on every non-mapping. -/
def pyGetItem (fm : Fm) (k : String) : Except PyExc PyVal :=
  match fm with
  | .dict es =>
    match es.lookup k with
    | some v => .ok v
    | none => .error PyExc.keyError
  | _ => .error PyExc.typeError

/-- Python `len(v)`: defined for strings (character count); raises
`TypeError` on the other scalars. -/
def pyLen : PyVal → Except PyExc Nat
  | .vstr s => .ok s.length
  | _ => .error PyExc.typeError

/-- Python `str(v)` as used by f-string interpolation. -/
def pyStr : PyVal → String
  | .vstr s => s
  | .vint n => toString n
  | .vbool b => if b then "True" else "False"
  | .vnone => "None"

/-- Python `v == s` for a scalar against a string. -/
def pyEqStr (v : PyVal) (s : String) : Bool :=
  match v with
  | .vstr t => decide (t = s)
  | _ => false

/-- Python `v in l` for a scalar against a list of strings: equality with
some element (non-strings equal no string). -/
def pyInStrList (v : PyVal) (l : List String) : Bool :=
  match v with
  | .vstr s => l.contains s
  | _ => false

/-- Whether a frontmatter value is a mapping (`isinstance(fm, dict)`). -/
def isDictB : Fm → Bool
  | .dict _ => true
  | _ => false

/-- Abstract filesystem: pure views of existence, file/directory tests,
directory listing, file reads (which may fail with an error message, like
`read_text` raising `OSError`), and the outcome of `compile()` on a
Python script's text (success, or failure with the `SyntaxError` text). -/
structure FS where
  pathExists : FPath → Bool
  isFile : FPath → Bool
  isDir : FPath → Bool
  listDir : FPath → List FPath
  readText : FPath → Except String String
  pyCompileOk : FPath → Bool
  pySyntaxMsg : FPath → String

/-- Result of `yaml.safe_load`: a value, or a `yaml.YAMLError` message. -/
inductive YamlResult where
  | ok (fm : Fm)
  | err (msg : String)
deriving DecidableEq

/-- Combined outcome of `json.loads` + `jsonschema.validate` against one
fixed schema: a decode failure, the first schema violation (message and
dotted path, possibly empty), or success. -/
inductive JsonOutcome where
  | valid
  | decodeError (msg : String)
  | schemaError (msg : String) (path : List String)
deriving DecidableEq

/-- The per-file result record built by the batch validator. -/
structure ValidationResult where
  file : String
  valid : Bool
  errors : List String
  warnings : List String
deriving DecidableEq

/-- The source pattern `result["valid"] = False` together with
`result["errors"].append(e)`. -/
def addError (r : ValidationResult) (e : String) : ValidationResult :=
  ValidationResult.mk r.file false (r.errors ++ [e]) r.warnings

/-- The source pattern `result["warnings"].append(w)`. -/
def addWarning (r : ValidationResult) (w : String) : ValidationResult :=
  ValidationResult.mk r.file r.valid r.errors (r.warnings ++ [w])

namespace Batch

/-! Embedding of `/.github/scripts/validate-config.py`. -/

/-- Source: `extract_frontmatter(content)`. Returns the parsed
frontmatter (possibly `None`) and an error message; exactly one of the
two components carries information, except that a successful parse of an
empty block gives `(some Fm.fnone, none)` which the callers treat via
truthiness exactly as Python treats `(None, None)`. -/
def extract_frontmatter (yaml : String → YamlResult) (content : String) :
    Option Fm × Option String :=
  if ¬ strStartsWith content "---" then
    (none, some "Missing YAML frontmatter (must start with ---)")
  else
    let parts := pySplit content "---" 2
    if parts.length < 3 then
      (none, some "Invalid frontmatter format (missing closing ---)")
    else
      match yaml (parts.getD 1 "") with
      | .ok fm => (some fm, none)
      | .err e =>
        if strContains e "mapping values are not allowed" then
          (none, some ("Invalid YAML: Colon in value breaks parsing. Quote the description or use multi-line syntax:\n    description: |\n      Your description with: colons here"))
        else (none, some ("Invalid YAML: " ++ e))

/-- Source: `validate_json_file(file_path, schema)`; `check` bundles
`json.loads` plus `jsonschema.validate` against the fixed schema.
An `OSError` from `read_text` is not caught by the source and surfaces
as `Except.error`. -/
def validate_json_file (fs : FS) (check : String → JsonOutcome)
    (file_path : FPath) : Except PyExc ValidationResult :=
  let r0 := ValidationResult.mk (pathStr file_path) true [] []
  if ¬ fs.pathExists file_path then
    .ok (addWarning r0 ("File not found: " ++ pathStr file_path))
  else
    match fs.readText file_path with
    | .error e => .error (PyExc.oserror e)
    | .ok content =>
      match check content with
      | .decodeError e => .ok (addError r0 ("Invalid JSON: " ++ e))
      | .valid => .ok r0
      | .schemaError m p =>
        let r1 := addError r0 ("Schema validation: " ++ m)
        if p.isEmpty then .ok r1
        else .ok (addError r1 ("  at: " ++ String.intercalate "." p))

/-- Warning text for a description under 20 characters (agents). -/
def shortDesc20 : String := "Description is very short (< 20 chars)"

/-- Warning text for a description under 30 characters (batch skills). -/
def shortDesc30 : String := "Description is very short (< 30 chars)"

/-- The enumerated `valid_models` list. -/
def valid_models : List String := ["opus", "sonnet", "haiku", "inherit"]

/-- The `description` block of `validate_agent` (the `"description" not
in fm` check and the length warning). -/
def agentDescCheck (fm : Fm) (r1 : ValidationResult) :
    Except PyExc ValidationResult :=
  match pyContains fm "description" with
  | .error ex => .error ex
  | .ok hasDesc =>
    if ¬ hasDesc then .ok (addError r1 "Missing required field: description")
    else
      match pyGet fm "description" (PyVal.vstr "") with
      | .error ex => .error ex
      | .ok d =>
        match pyLen d with
        | .error ex => .error ex
        | .ok n => .ok (if n < 20 then addWarning r1 shortDesc20 else r1)

/-- The optional `model` block of `validate_agent`. -/
def agentModelCheck (fm : Fm) (r2 : ValidationResult) :
    Except PyExc ValidationResult :=
  match pyContains fm "model" with
  | .error ex => .error ex
  | .ok hasModel =>
    if ¬ hasModel then .ok r2
    else
      match pyGetItem fm "model" with
      | .error ex => .error ex
      | .ok m =>
        if pyInStrList m valid_models then .ok r2
        else .ok (addWarning r2 ("Unknown model: " ++ pyStr m))

/-- Source: `validate_agent(file_path)`. Exceptions the source does not
catch (`OSError` from `read_text`, `TypeError`/`AttributeError` from the
dynamic field operations) surface as `Except.error`. -/
def validate_agent (fs : FS) (yaml : String → YamlResult)
    (file_path : FPath) : Except PyExc ValidationResult :=
  let r0 := ValidationResult.mk (pathStr file_path) true [] []
  match fs.readText file_path with
  | .error e => .error (PyExc.oserror e)
  | .ok content =>
  match extract_frontmatter yaml content with
  | (_, some error) => .ok (addError r0 error)
  | (fmOpt, none) =>
  let fm := fmOpt.getD Fm.fnone
  if truthy fm = false then .ok (addError r0 "Empty frontmatter")
  else
  match pyContains fm "name" with
  | .error ex => .error ex
  | .ok hasName =>
  let r1 := if hasName then r0 else addError r0 "Missing required field: name"
  match agentDescCheck fm r1 with
  | .error ex => .error ex
  | .ok r2 => agentModelCheck fm r2

end Batch

/-- Python `\s` for the ASCII whitespace characters. -/
def pyIsSpace (c : Char) : Bool :=
  c = ' ' || c = '\t' || c = '\n' || c = '\x0d' || c = '\x0b' || c = '\x0c'

namespace Batch

/-- Try to match the regex `\[([^\]]+)\]\(([^)]+)\)` at the head of the
character list; on success return the second capture group (the link
target) and the characters after the match. -/
def linkAt : List Char → Option (String × List Char)
  | '[' :: rest =>
    let inner := rest.takeWhile (fun c => c ≠ ']')
    let rest2 := rest.dropWhile (fun c => c ≠ ']')
    if inner.isEmpty then none
    else
      match rest2 with
      | ']' :: '(' :: rest3 =>
        let tgt := rest3.takeWhile (fun c => c ≠ ')')
        let rest4 := rest3.dropWhile (fun c => c ≠ ')')
        if tgt.isEmpty then none
        else
          match rest4 with
          | ')' :: rest5 => some (String.mk tgt, rest5)
          | _ => none
      | _ => none
  | _ => none

/-- Fuel-indexed scan for all non-overlapping matches of the markdown
link pattern, left to right (`re.finditer` semantics: on failure the scan
advances one character). The fuel is an upper bound on steps; every step
consumes at least one character, so fuel equal to the length suffices. -/
def findLinksGo : Nat → List Char → List String
  | 0, _ => []
  | Nat.succ n, cs =>
    match cs with
    | [] => []
    | _ :: cs' =>
      match linkAt cs with
      | some (tgt, rest) => tgt :: findLinksGo n rest
      | none => findLinksGo n cs'

/-- All targets of `re.finditer(link_pattern, body)`. -/
def findLinks (body : String) : List String :=
  findLinksGo body.data.length body.data

/-- Try to match the regex
`` `((?:scripts|references|assets)/[^`\s]+)` `` at the head of the
character list; on success return the capture group and the rest. -/
def codeAt : List Char → Option (String × List Char)
  | '`' :: rest =>
    let dirPfx :=
      if prefixB "scripts/".data rest then some "scripts/"
      else if prefixB "references/".data rest then some "references/"
      else if prefixB "assets/".data rest then some "assets/"
      else none
    match dirPfx with
    | none => none
    | some p =>
      let rest2 := rest.drop p.length
      let tail := rest2.takeWhile (fun c => c ≠ '`' && !pyIsSpace c)
      let rest3 := rest2.dropWhile (fun c => c ≠ '`' && !pyIsSpace c)
      if tail.isEmpty then none
      else
        match rest3 with
        | '`' :: rest4 => some (String.mk (p.data ++ tail), rest4)
        | _ => none
  | _ => none

/-- Fuel-indexed scan for all matches of the code-span path pattern. -/
def findCodeRefsGo : Nat → List Char → List String
  | 0, _ => []
  | Nat.succ n, cs =>
    match cs with
    | [] => []
    | _ :: cs' =>
      match codeAt cs with
      | some (tgt, rest) => tgt :: findCodeRefsGo n rest
      | none => findCodeRefsGo n cs'

/-- All captures of `re.finditer(code_pattern, body)`. -/
def findCodeRefs (body : String) : List String :=
  findCodeRefsGo body.data.length body.data

/-- The body of the first `for match in re.finditer(link_pattern, body)`
loop of `check_skill_references`, for one reference. -/
def linkStep (fs : FS) (skill_dir : FPath) (acc : ValidationResult)
    (ref : String) : ValidationResult :=
  if strStartsWith ref "http://" || strStartsWith ref "https://"
      || strStartsWith ref "#" then acc
  else if fs.pathExists (joinRel skill_dir ref) then acc
  else addWarning acc ("Referenced file not found: " ++ ref)

/-- The body of the second `for match in re.finditer(code_pattern, body)`
loop of `check_skill_references`, for one reference. -/
def codeStep (fs : FS) (skill_dir : FPath) (acc : ValidationResult)
    (ref : String) : ValidationResult :=
  if fs.pathExists (joinRel skill_dir ref) then acc
  else addWarning acc ("Referenced path not found: " ++ ref)

/-- Source: `check_skill_references(skill_dir, body, result)`; the
mutation of `result` is modelled by returning the updated record. -/
def check_skill_references (fs : FS) (skill_dir : FPath) (body : String)
    (r : ValidationResult) : ValidationResult :=
  if pathName skill_dir = "skill-creator" then r
  else
    let r1 := (findLinks body).foldl (linkStep fs skill_dir) r
    (findCodeRefs body).foldl (codeStep fs skill_dir) r1

/-- One iteration of the `check_skill_scripts` loop body for one entry of
`scripts_dir.iterdir()`. `read_text` failures surface as `Except.error`
(the source does not catch them); a failing `compile()` is the caught
`SyntaxError` branch. -/
def lintScript (fs : FS) (r : ValidationResult) (script : FPath) :
    Except PyExc ValidationResult :=
  if ¬ fs.isFile script then .ok r
  else if pySuffix (pathName script) = ".py" then
    match fs.readText script with
    | .error e => .error (PyExc.oserror e)
    | .ok _ =>
      if fs.pyCompileOk script then .ok r
      else .ok (addError r ("Python syntax error in " ++ pathName script
        ++ ": " ++ fs.pySyntaxMsg script))
  else if pySuffix (pathName script) = ".sh" then
    match fs.readText script with
    | .error e => .error (PyExc.oserror e)
    | .ok content =>
      if ¬ strStartsWith content "#!" then
        .ok (addWarning r ("Shell script " ++ pathName script
          ++ " missing shebang"))
      else .ok r
  else .ok r

/-- The `for script in scripts_dir.iterdir()` loop. -/
def lintScripts (fs : FS) : List FPath → ValidationResult →
    Except PyExc ValidationResult
  | [], r => .ok r
  | script :: rest, r =>
    match lintScript fs r script with
    | .error ex => .error ex
    | .ok r' => lintScripts fs rest r'

/-- Source: `check_skill_scripts(skill_dir, result)`. -/
def check_skill_scripts (fs : FS) (skill_dir : FPath)
    (r : ValidationResult) : Except PyExc ValidationResult :=
  let scripts_dir := skill_dir ++ ["scripts"]
  if ¬ fs.pathExists scripts_dir then .ok r
  else lintScripts fs (fs.listDir scripts_dir) r

/-- The name-mismatch warning
`f"name '{fm['name']}' doesn't match directory '{skill_dir.name}'"`. -/
def nameMismatchMsg (v : PyVal) (dirName : String) : String :=
  "name " ++ sqc ++ pyStr v ++ sqc ++ " doesn" ++ sqc ++ "t match directory "
    ++ sqc ++ dirName ++ sqc

/-- The `name` block of the batch `validate_skill` (the required-field
check and the directory-name-mismatch warning). -/
def skillNameCheck (fm : Fm) (dirName : String) (r0 : ValidationResult) :
    Except PyExc ValidationResult :=
  match pyContains fm "name" with
  | .error ex => .error ex
  | .ok hasName =>
    if ¬ hasName then .ok (addError r0 "Missing required field: name")
    else
      match pyGetItem fm "name" with
      | .error ex => .error ex
      | .ok v =>
        if ¬ pyEqStr v dirName then
          .ok (addWarning r0 (nameMismatchMsg v dirName))
        else .ok r0

/-- The `description` block of the batch `validate_skill`. -/
def skillDescCheck (fm : Fm) (r1 : ValidationResult) :
    Except PyExc ValidationResult :=
  match pyContains fm "description" with
  | .error ex => .error ex
  | .ok hasDesc =>
    if ¬ hasDesc then .ok (addError r1 "Missing required field: description")
    else
      match pyGet fm "description" (PyVal.vstr "") with
      | .error ex => .error ex
      | .ok d =>
        match pyLen d with
        | .error ex => .error ex
        | .ok n => .ok (if n < 30 then addWarning r1 shortDesc30 else r1)

/-- Source: `validate_skill(skill_dir)` of the batch validator. -/
def validate_skill (fs : FS) (yaml : String → YamlResult)
    (skill_dir : FPath) : Except PyExc ValidationResult :=
  let skill_md := skill_dir ++ ["SKILL.md"]
  let r0 := ValidationResult.mk (pathStr skill_md) true [] []
  if ¬ fs.pathExists skill_md then .ok (addError r0 "Missing SKILL.md")
  else
  match fs.readText skill_md with
  | .error e => .error (PyExc.oserror e)
  | .ok content =>
  match extract_frontmatter yaml content with
  | (_, some error) => .ok (addError r0 error)
  | (fmOpt, none) =>
  let fm := fmOpt.getD Fm.fnone
  if truthy fm = false then .ok (addError r0 "Empty frontmatter")
  else
  match skillNameCheck fm (pathName skill_dir) r0 with
  | .error ex => .error ex
  | .ok r1 =>
  match skillDescCheck fm r1 with
  | .error ex => .error ex
  | .ok r2 =>
  let body :=
    if strStartsWith content "---" then (pySplit content "---" 2).getD 2 ""
    else content
  check_skill_scripts fs skill_dir (check_skill_references fs skill_dir body r2)

end Batch

namespace Batch

/-- The accumulator of `main`: the `results` list and the `has_errors`
flag. -/
abbrev MainState := List ValidationResult × Bool

/-- The source pattern `results.append(result)` followed by
`if not result["valid"]: has_errors = True`. -/
def appendResult (st : MainState) (r : ValidationResult) : MainState :=
  (st.1 ++ [r], st.2 || !r.valid)

/-- One `validate_json_file` block of `main` (the schema may be absent,
in which case `load_json_schema` returned `None` and the block is
skipped). -/
def stepJson (fs : FS) (schema : Option (String → JsonOutcome))
    (p : FPath) (st : MainState) : Except PyExc MainState :=
  match schema with
  | none => .ok st
  | some check =>
    match validate_json_file fs check p with
    | .error ex => .error ex
    | .ok r => .ok (appendResult st r)

/-- The `for agent_file in agents_dir.glob("*.md")` loop of `main`. -/
def agentsLoop (fs : FS) (yaml : String → YamlResult) :
    List FPath → MainState → Except PyExc MainState
  | [], st => .ok st
  | f :: rest, st =>
    if strStartsWith (pathName f) "AGENTS-" then agentsLoop fs yaml rest st
    else
      match validate_agent fs yaml f with
      | .error ex => .error ex
      | .ok r => agentsLoop fs yaml rest (appendResult st r)

/-- The skipped shared-resource directory names of `main`. -/
def skip_dirs : List String := ["references", "scripts", "assets"]

/-- The `for skill_dir in skills_dir.iterdir()` loop of `main`. -/
def skillsLoop (fs : FS) (yaml : String → YamlResult) :
    List FPath → MainState → Except PyExc MainState
  | [], st => .ok st
  | d :: rest, st =>
    if ¬ fs.isDir d then skillsLoop fs yaml rest st
    else if skip_dirs.contains (pathName d) then skillsLoop fs yaml rest st
    else
      match validate_skill fs yaml d with
      | .error ex => .error ex
      | .ok r => skillsLoop fs yaml rest (appendResult st r)

/-- Whether a directory entry is matched by `glob("*.md")` (name ends in
`.md` and is not hidden). -/
def mdGlob (p : FPath) : Bool :=
  strEndsWith (pathName p) ".md" && !strStartsWith (pathName p) "."

/-- The environment of one batch run: the filesystem, the YAML parser,
and the optional schema checks (`load_json_schema` returns `None` when
the schema file is absent, which disables the corresponding block). -/
structure BatchEnv where
  fs : FS
  yaml : String → YamlResult
  settingsSchema : Option (String → JsonOutcome)
  mcpSchema : Option (String → JsonOutcome)

/-- Path of `settings.json` relative to the repository root. -/
def settingsPath : FPath := ["settings.json"]

/-- Path of `.mcp.json` relative to the repository root. -/
def mcpPath : FPath := [".mcp.json"]

/-- Path of the `agents` directory relative to the repository root. -/
def agentsDir : FPath := ["agents"]

/-- Path of the `skills` directory relative to the repository root. -/
def skillsDir : FPath := ["skills"]

/-- Source: `main()`. Returns the accumulated results, the `has_errors`
flag and the argument of `sys.exit`; an exception raised by any
per-file validator propagates (the source has no handler around the
loops) and aborts the run as `Except.error`. The console report and the
optional `GITHUB_OUTPUT` block are output-only and not modelled. -/
def main (env : BatchEnv) :
    Except PyExc (List ValidationResult × Bool × Nat) :=
  match stepJson env.fs env.settingsSchema settingsPath ([], false) with
  | .error ex => .error ex
  | .ok st1 =>
  match stepJson env.fs env.mcpSchema mcpPath st1 with
  | .error ex => .error ex
  | .ok st2 =>
  let agStep :=
    if env.fs.pathExists agentsDir then
      agentsLoop env.fs env.yaml
        ((env.fs.listDir agentsDir).filter mdGlob) st2
    else .ok st2
  match agStep with
  | .error ex => .error ex
  | .ok st3 =>
  let skStep :=
    if env.fs.pathExists skillsDir then
      skillsLoop env.fs env.yaml (env.fs.listDir skillsDir) st3
    else .ok st3
  match skStep with
  | .error ex => .error ex
  | .ok st4 => .ok (st4.1, st4.2, if st4.2 then 1 else 0)

end Batch

namespace Hook

/-! Embedding of `/hooks/validators/skill_frontmatter_validator.py`. -/

/-- Source: `REQUIRED_FIELDS`. -/
def REQUIRED_FIELDS : List String := ["name", "description"]

/-- Source: `FORBIDDEN_FILES`. -/
def FORBIDDEN_FILES : List String :=
  ["README.md", "INSTALLATION.md", "CHANGELOG.md", "QUICK_REFERENCE.md",
   "INSTALLATION_GUIDE.md"]

/-- The hook's unterminated-frontmatter error text. -/
def untermMsg : String :=
  "Invalid frontmatter structure (missing closing " ++ sqc ++ "---" ++ sqc
    ++ ")"

/-- The hook's missing-frontmatter error text. -/
def missingFmMsg : String :=
  "Missing YAML frontmatter (must start with " ++ sqc ++ "---" ++ sqc ++ ")"

/-- The hook's missing-required-field error text. -/
def missingFieldMsg (field : String) : String :=
  "Missing required field: " ++ sqc ++ field ++ sqc

/-- The hook's empty-required-field error text. -/
def emptyFieldMsg (field : String) : String :=
  "Field " ++ sqc ++ field ++ sqc ++ " cannot be empty"

/-- The hook's short-description error text (carries `len(desc)`). -/
def tooShortMsg (n : Nat) : String :=
  "Description too short (" ++ toString n
    ++ " chars) - should be comprehensive (50+ chars). Include what the skill does AND when to use it."

/-- The hook's forbidden-file error text. -/
def forbiddenMsg (forbidden : String) : String :=
  "Forbidden file found: " ++ forbidden
    ++ " - Skills should only contain essential files (SKILL.md, scripts/, references/, assets/)"

/-- The body of the `for field in REQUIRED_FIELDS` loop, for one field. -/
def requiredStep (entries : List (String × PyVal)) (acc : List String)
    (field : String) : List String :=
  match entries.lookup field with
  | none => acc ++ [missingFieldMsg field]
  | some v => if ¬ truthyVal v then acc ++ [emptyFieldMsg field] else acc

/-- The `for field in REQUIRED_FIELDS` loop of the hook validator. -/
def requiredFieldErrs (entries : List (String × PyVal)) : List String :=
  REQUIRED_FIELDS.foldl (requiredStep entries) []

/-- The description-length block of the hook validator; `len(desc)` on a
non-sized value raises outside the `try` block, hence `Except`. -/
def hookDescCheck (entries : List (String × PyVal)) (errs1 : List String) :
    Except PyExc (List String) :=
  match entries.lookup "description" with
  | none => .ok errs1
  | some desc =>
    match pyLen desc with
    | .error ex => .error ex
    | .ok n => .ok (if n < 50 then errs1 ++ [tooShortMsg n] else errs1)

/-- The body of the `for forbidden in FORBIDDEN_FILES` loop. -/
def forbiddenStep (fs : FS) (skill_dir : FPath) (acc : List String)
    (forbidden : String) : List String :=
  if fs.pathExists (skill_dir ++ [forbidden]) then
    acc ++ [forbiddenMsg forbidden]
  else acc

/-- The `for forbidden in FORBIDDEN_FILES` loop of the hook validator. -/
def forbiddenErrs (fs : FS) (skill_dir : FPath) (errs2 : List String) :
    List String :=
  FORBIDDEN_FILES.foldl (forbiddenStep fs skill_dir) errs2

/-- Source: `validate_skill(file_path)` of the hook validator. Returns
the list of validation errors. The only operation whose exception the
source does not catch is `len(desc)` on a non-sized description value
(it sits outside the `try` block), surfacing as `Except.error`. -/
def validate_skill (fs : FS) (yaml : String → YamlResult)
    (file_path : String) : Except PyExc (List String) :=
  let path := pathOfString file_path
  if pathName path ≠ "SKILL.md" then .ok []
  else
  let skill_dir := path.dropLast
  match fs.readText path with
  | .error e => .ok ["Failed to read file: " ++ e]
  | .ok content =>
  if ¬ strStartsWith content "---" then .ok [missingFmMsg]
  else
  let parts := pySplit content "---" 2
  if parts.length < 3 then .ok [untermMsg]
  else
  match yaml (parts.getD 1 "") with
  | .err e => .ok ["Invalid YAML frontmatter: " ++ e]
  | .ok frontmatter =>
  match frontmatter with
  | Fm.dict entries =>
    match hookDescCheck entries (requiredFieldErrs entries) with
    | .error ex => .error ex
    | .ok errs2 => .ok (forbiddenErrs fs skill_dir errs2)
  | _ => .ok ["Frontmatter must be a YAML object/dictionary"]

/-- One of the three JSON objects the hook prints before exiting:
the stderr error object of the malformed-input path, the blocking
decision, or the success acknowledgment. -/
inductive HookOut where
  | stderrMsg (decision reason : String)
  | block (reason hookEventName additionalContext : String)
  | cont (systemMessage : String)
deriving DecidableEq

/-- The `additionalContext` bullet list built from the error list. -/
def hookContext (file_path : String) (errors : List String) : String :=
  "Fix these skill structure issues in " ++ file_path ++ ":\n\n"
    ++ String.intercalate "\n" (errors.map (fun e => "  • " ++ e))
    ++ "\n\nSee skill-creator guidelines for proper structure."

/-- Source: the `__main__` block of the hook. The stdin channel is
modelled as the combined outcome of
`json.load(sys.stdin)["tool_input"]["file_path"]`: either the extracted
path string or the caught exception's text. Returns the emitted object
and the `sys.exit` argument; an exception `validate_skill` does not
catch aborts the process as `Except.error`. -/
def main (fs : FS) (yaml : String → YamlResult)
    (stdin : Except String String) : Except PyExc (HookOut × Nat) :=
  match stdin with
  | .error e =>
    .ok (HookOut.stderrMsg "block"
      ("Validator error: Failed to parse hook input: " ++ e), 2)
  | .ok file_path =>
    match validate_skill fs yaml file_path with
    | .error ex => .error ex
    | .ok errors =>
      match errors with
      | [] =>
        .ok (HookOut.cont ("✅ Skill validation passed: "
          ++ pathName (pathOfString file_path)), 0)
      | _ =>
        .ok (HookOut.block
          ("Skill validation failed for " ++ pathName (pathOfString file_path))
          "PostToolUse" (hookContext file_path errors), 2)

end Hook

/-! Helper lemmas. -/

/-- The invariant claimed for every `ValidationResult`: the `valid` flag
equals emptiness of the `errors` list (so warnings cannot affect it). -/
def validOk (r : ValidationResult) : Prop := r.valid = r.errors.isEmpty

theorem validOk_mk0 (f : String) : validOk (ValidationResult.mk f true [] []) := rfl

theorem isEmpty_append_singleton {α : Type} (l : List α) (a : α) :
    (l ++ [a]).isEmpty = false := by
  cases l <;> rfl

theorem validOk_addError (r : ValidationResult) (e : String) :
    validOk (addError r e) := by
  show false = (r.errors ++ [e]).isEmpty
  rw [isEmpty_append_singleton]

theorem validOk_addWarning (r : ValidationResult) (w : String)
    (h : validOk r) : validOk (addWarning r w) := h

theorem errors_addWarning (r : ValidationResult) (w : String) :
    (addWarning r w).errors = r.errors := rfl

theorem valid_addWarning (r : ValidationResult) (w : String) :
    (addWarning r w).valid = r.valid := rfl

theorem warnings_addError (r : ValidationResult) (e : String) :
    (addError r e).warnings = r.warnings := rfl

/-- A fold whose step only rewrites warnings leaves `errors` and `valid`
unchanged. -/
theorem foldl_preserves_errors_valid {α : Type}
    (g : ValidationResult → α → ValidationResult)
    (hg : ∀ r a, (g r a).errors = r.errors ∧ (g r a).valid = r.valid) :
    ∀ (l : List α) (r : ValidationResult),
      (l.foldl g r).errors = r.errors ∧ (l.foldl g r).valid = r.valid := by
  intro l
  induction l with
  | nil => intro r; exact ⟨rfl, rfl⟩
  | cons a as ih =>
    intro r
    have h1 := hg r a
    have h2 := ih (g r a)
    simp only [List.foldl]
    exact ⟨h2.1.trans h1.1, h2.2.trans h1.2⟩

theorem check_skill_references_errors_valid (fs : FS) (d : FPath)
    (body : String) (r : ValidationResult) :
    (Batch.check_skill_references fs d body r).errors = r.errors ∧
    (Batch.check_skill_references fs d body r).valid = r.valid := by
  unfold Batch.check_skill_references
  split
  · exact ⟨rfl, rfl⟩
  · have hg1 : ∀ (r' : ValidationResult) (ref : String),
        (Batch.linkStep fs d r' ref).errors = r'.errors ∧
        (Batch.linkStep fs d r' ref).valid = r'.valid := by
      intro r' ref
      unfold Batch.linkStep
      split
      · exact ⟨rfl, rfl⟩
      · split
        · exact ⟨rfl, rfl⟩
        · exact ⟨rfl, rfl⟩
    have hg2 : ∀ (r' : ValidationResult) (ref : String),
        (Batch.codeStep fs d r' ref).errors = r'.errors ∧
        (Batch.codeStep fs d r' ref).valid = r'.valid := by
      intro r' ref
      unfold Batch.codeStep
      split
      · exact ⟨rfl, rfl⟩
      · exact ⟨rfl, rfl⟩
    have h1 := foldl_preserves_errors_valid (Batch.linkStep fs d) hg1
      (Batch.findLinks body) r
    have h2 := foldl_preserves_errors_valid (Batch.codeStep fs d) hg2
      (Batch.findCodeRefs body) ((Batch.findLinks body).foldl (Batch.linkStep fs d) r)
    exact ⟨h2.1.trans h1.1, h2.2.trans h1.2⟩

theorem lintScript_validOk (fs : FS) (r : ValidationResult) (p : FPath)
    (r' : ValidationResult) (h : Batch.lintScript fs r p = .ok r')
    (hr : validOk r) : validOk r' := by
  unfold Batch.lintScript at h
  split at h
  · cases h; exact hr
  · split at h
    · split at h
      · exact Except.noConfusion h
      · split at h
        · cases h; exact hr
        · cases h; exact validOk_addError _ _
    · split at h
      · split at h
        · exact Except.noConfusion h
        · split at h
          · cases h; exact validOk_addWarning _ _ hr
          · cases h; exact hr
      · cases h; exact hr

theorem lintScripts_validOk (fs : FS) :
    ∀ (l : List FPath) (r r' : ValidationResult),
      Batch.lintScripts fs l r = .ok r' → validOk r → validOk r' := by
  intro l
  induction l with
  | nil => intro r r' h hr; cases h; exact hr
  | cons p ps ih =>
    intro r r' h hr
    unfold Batch.lintScripts at h
    split at h
    · exact Except.noConfusion h
    · rename_i r1 heq
      exact ih r1 r' h (lintScript_validOk fs r p r1 heq hr)

theorem check_skill_scripts_validOk (fs : FS) (d : FPath)
    (r r' : ValidationResult) (h : Batch.check_skill_scripts fs d r = .ok r')
    (hr : validOk r) : validOk r' := by
  unfold Batch.check_skill_scripts at h
  dsimp only at h
  split at h
  · cases h; exact hr
  · exact lintScripts_validOk fs _ r r' h hr

theorem validOk_ite_addError (b : Bool) (r : ValidationResult) (e : String)
    (h : validOk r) : validOk (if b then r else addError r e) := by
  cases b
  · exact validOk_addError _ _
  · exact h

theorem validate_json_file_validOk (fs : FS) (check : String → JsonOutcome)
    (p : FPath) (r : ValidationResult)
    (h : Batch.validate_json_file fs check p = .ok r) : validOk r := by
  unfold Batch.validate_json_file at h
  dsimp only at h
  repeat' split at h
  all_goals
    first
      | exact Except.noConfusion h
      | (cases h; simp [validOk, addError, addWarning])

theorem agentDescCheck_validOk (fm : Fm) (r1 r2 : ValidationResult)
    (h : Batch.agentDescCheck fm r1 = .ok r2) (h1 : validOk r1) :
    validOk r2 := by
  unfold Batch.agentDescCheck at h
  repeat' split at h
  all_goals
    first
      | exact Except.noConfusion h
      | (cases h;
         simp_all [validOk, addError, addWarning, isEmpty_append_singleton])

theorem agentModelCheck_validOk (fm : Fm) (r2 r3 : ValidationResult)
    (h : Batch.agentModelCheck fm r2 = .ok r3) (h2 : validOk r2) :
    validOk r3 := by
  unfold Batch.agentModelCheck at h
  repeat' split at h
  all_goals
    first
      | exact Except.noConfusion h
      | (cases h;
         simp_all [validOk, addError, addWarning, isEmpty_append_singleton])

theorem validate_agent_validOk (fs : FS) (yaml : String → YamlResult)
    (p : FPath) (r : ValidationResult)
    (h : Batch.validate_agent fs yaml p = .ok r) : validOk r := by
  unfold Batch.validate_agent at h
  dsimp only at h
  split at h
  · exact Except.noConfusion h
  · split at h
    · cases h; exact validOk_addError _ _
    · split at h
      · cases h; exact validOk_addError _ _
      · split at h
        · exact Except.noConfusion h
        · split at h
          · exact Except.noConfusion h
          · rename_i r2 hr2
            exact agentModelCheck_validOk _ _ _ h
              (agentDescCheck_validOk _ _ _ hr2
                (validOk_ite_addError _ _ _ (validOk_mk0 _)))

theorem skillNameCheck_validOk (fm : Fm) (dn : String)
    (r0 r1 : ValidationResult)
    (h : Batch.skillNameCheck fm dn r0 = .ok r1) (h0 : validOk r0) :
    validOk r1 := by
  unfold Batch.skillNameCheck at h
  repeat' split at h
  all_goals
    first
      | exact Except.noConfusion h
      | (cases h;
         simp_all [validOk, addError, addWarning, isEmpty_append_singleton])

theorem skillDescCheck_validOk (fm : Fm) (r1 r2 : ValidationResult)
    (h : Batch.skillDescCheck fm r1 = .ok r2) (h1 : validOk r1) :
    validOk r2 := by
  unfold Batch.skillDescCheck at h
  repeat' split at h
  all_goals
    first
      | exact Except.noConfusion h
      | (cases h;
         simp_all [validOk, addError, addWarning, isEmpty_append_singleton])

theorem validOk_check_skill_references (fs : FS) (d : FPath) (body : String)
    (r : ValidationResult) (h : validOk r) :
    validOk (Batch.check_skill_references fs d body r) := by
  have he := check_skill_references_errors_valid fs d body r
  show _ = _
  rw [he.1, he.2]
  exact h

theorem validate_skill_validOk (fs : FS) (yaml : String → YamlResult)
    (d : FPath) (r : ValidationResult)
    (h : Batch.validate_skill fs yaml d = .ok r) : validOk r := by
  unfold Batch.validate_skill at h
  dsimp only at h
  split at h
  · cases h; exact validOk_addError _ _
  · split at h
    · exact Except.noConfusion h
    · split at h
      · cases h; exact validOk_addError _ _
      · split at h
        · cases h; exact validOk_addError _ _
        · split at h
          · exact Except.noConfusion h
          · rename_i r1 hr1
            split at h
            · exact Except.noConfusion h
            · rename_i r2 hr2
              exact check_skill_scripts_validOk _ _ _ _ h
                (validOk_check_skill_references _ _ _ _
                  (skillDescCheck_validOk _ _ _ hr2
                    (skillNameCheck_validOk _ _ _ _ hr1 (validOk_mk0 _))))

/-! Concrete environments used by witnesses. -/

/-- A filesystem with no files at all (every read fails). -/
def fsEmpty : FS :=
  FS.mk (fun _ => false) (fun _ => false) (fun _ => false) (fun _ => [])
    (fun _ => .error "No such file or directory") (fun _ => true)
    (fun _ => "")

/-- A filesystem holding exactly one readable file. -/
def fsWith (p : FPath) (content : String) : FS :=
  FS.mk (fun q => decide (q = p)) (fun q => decide (q = p)) (fun _ => false)
    (fun _ => [])
    (fun q => if q = p then .ok content else .error "No such file or directory")
    (fun _ => true) (fun _ => "")

/-- A YAML parser stub returning `None` for every input. -/
def yamlNone : String → YamlResult := fun _ => .ok Fm.fnone

/-- A YAML parser stub returning a fixed value for every input. -/
def yamlConst (fm : Fm) : String → YamlResult := fun _ => .ok fm

/-- A schema check accepting every document. -/
def checkValid : String → JsonOutcome := fun _ => .valid

/-- C1: for every `ValidationResult` produced by `validate_json_file`,
`validate_agent` or `validate_skill` (the latter including the effects of
`check_skill_references` and `check_skill_scripts`), the `valid` field
equals emptiness of `errors` — so `valid` is `false` iff `errors` is
non-empty, and `warnings` (the only field the reference checker and the
shebang check touch) never affects `valid`. -/
theorem C1_valid_iff_errors :
    (∀ (fs : FS) (check : String → JsonOutcome) (p : FPath)
        (r : ValidationResult),
      Batch.validate_json_file fs check p = .ok r →
        r.valid = r.errors.isEmpty) ∧
    (∀ (fs : FS) (yaml : String → YamlResult) (p : FPath)
        (r : ValidationResult),
      Batch.validate_agent fs yaml p = .ok r →
        r.valid = r.errors.isEmpty) ∧
    (∀ (fs : FS) (yaml : String → YamlResult) (d : FPath)
        (r : ValidationResult),
      Batch.validate_skill fs yaml d = .ok r →
        r.valid = r.errors.isEmpty) :=
  ⟨fun fs c p r h => validate_json_file_validOk fs c p r h,
   fun fs y p r h => validate_agent_validOk fs y p r h,
   fun fs y d r h => validate_skill_validOk fs y d r h⟩

/-- Witness for C1 at a concrete input. -/
theorem C1_valid_iff_errors_witness :
    Batch.validate_json_file fsEmpty checkValid Batch.settingsPath =
      .ok (ValidationResult.mk (pathStr Batch.settingsPath) true []
        ["File not found: " ++ pathStr Batch.settingsPath]) ∧
    (ValidationResult.mk (pathStr Batch.settingsPath) true []
      ["File not found: " ++ pathStr Batch.settingsPath]).valid =
    (ValidationResult.mk (pathStr Batch.settingsPath) true []
      ["File not found: " ++ pathStr Batch.settingsPath]).errors.isEmpty :=
  ⟨rfl, C1_valid_iff_errors.1 fsEmpty checkValid Batch.settingsPath _ rfl⟩

/-! Machinery for C2: the `has_errors` flag accumulated by `main` equals
"some collected result is invalid". -/

theorem appendResult_any (st : Batch.MainState) (r : ValidationResult)
    (h : st.2 = st.1.any (fun x => !x.valid)) :
    (Batch.appendResult st r).2 =
      (Batch.appendResult st r).1.any (fun x => !x.valid) := by
  simp [Batch.appendResult, h, List.any_append]

theorem stepJson_any (fs : FS) (sch : Option (String → JsonOutcome))
    (p : FPath) (st st' : Batch.MainState)
    (h : Batch.stepJson fs sch p st = .ok st')
    (hi : st.2 = st.1.any (fun x => !x.valid)) :
    st'.2 = st'.1.any (fun x => !x.valid) := by
  unfold Batch.stepJson at h
  split at h
  · cases h; exact hi
  · split at h
    · exact Except.noConfusion h
    · cases h; exact appendResult_any _ _ hi

theorem agentsLoop_any (fs : FS) (yaml : String → YamlResult) :
    ∀ (l : List FPath) (st st' : Batch.MainState),
      Batch.agentsLoop fs yaml l st = .ok st' →
      st.2 = st.1.any (fun x => !x.valid) →
      st'.2 = st'.1.any (fun x => !x.valid) := by
  intro l
  induction l with
  | nil => intro st st' h hi; cases h; exact hi
  | cons f fs' ih =>
    intro st st' h hi
    unfold Batch.agentsLoop at h
    split at h
    · exact ih st st' h hi
    · split at h
      · exact Except.noConfusion h
      · exact ih _ st' h (appendResult_any _ _ hi)

theorem skillsLoop_any (fs : FS) (yaml : String → YamlResult) :
    ∀ (l : List FPath) (st st' : Batch.MainState),
      Batch.skillsLoop fs yaml l st = .ok st' →
      st.2 = st.1.any (fun x => !x.valid) →
      st'.2 = st'.1.any (fun x => !x.valid) := by
  intro l
  induction l with
  | nil => intro st st' h hi; cases h; exact hi
  | cons d ds ih =>
    intro st st' h hi
    unfold Batch.skillsLoop at h
    split at h
    · exact ih st st' h hi
    · split at h
      · exact ih st st' h hi
      · split at h
        · exact Except.noConfusion h
        · exact ih _ st' h (appendResult_any _ _ hi)

theorem main_has_errors (env : Batch.BatchEnv)
    (rs : List ValidationResult) (he : Bool) (code : Nat)
    (h : Batch.main env = .ok (rs, he, code)) :
    he = rs.any (fun x => !x.valid) ∧ code = (if he then 1 else 0) := by
  unfold Batch.main at h
  dsimp only at h
  split at h
  · exact Except.noConfusion h
  · rename_i st1 heq1
    split at h
    · exact Except.noConfusion h
    · rename_i st2 heq2
      split at h
      · exact Except.noConfusion h
      · rename_i st3 heq3
        split at h
        · exact Except.noConfusion h
        · rename_i st4 heq4
          have h1 : st1.2 = st1.1.any (fun x => !x.valid) :=
            stepJson_any _ _ _ _ _ heq1 rfl
          have h2 : st2.2 = st2.1.any (fun x => !x.valid) :=
            stepJson_any _ _ _ _ _ heq2 h1
          have h3 : st3.2 = st3.1.any (fun x => !x.valid) := by
            split at heq3
            · exact agentsLoop_any _ _ _ _ _ heq3 h2
            · cases heq3; exact h2
          have h4 : st4.2 = st4.1.any (fun x => !x.valid) := by
            split at heq4
            · exact skillsLoop_any _ _ _ _ _ heq4 h3
            · cases heq4; exact h3
          cases h
          exact ⟨h4, rfl⟩

/-- C2: whenever a batch run completes normally (no per-file validator
raised), the exit status is 0 iff no collected `ValidationResult` has
`valid = false`, and 1 iff at least one does; since the exit status is a
function of the `valid` flags only, accumulated warnings can never change
it. -/
theorem C2_exit_status (env : Batch.BatchEnv)
    (rs : List ValidationResult) (he : Bool) (code : Nat)
    (h : Batch.main env = .ok (rs, he, code)) :
    (code = 0 ↔ ∀ r ∈ rs, r.valid = true) ∧
    (code = 1 ↔ ∃ r ∈ rs, r.valid = false) := by
  obtain ⟨h1, h2⟩ := main_has_errors env rs he code h
  cases hany : rs.any (fun x => !x.valid) with
  | false =>
    rw [hany] at h1
    subst h1
    simp only [if_neg (by decide : ¬ (false = true))] at h2
    subst h2
    simp only [List.any_eq_false] at hany
    constructor
    · exact ⟨fun _ r hr => by simpa using hany r hr, fun _ => rfl⟩
    · constructor
      · intro h01; exact absurd h01 (by decide)
      · rintro ⟨r, hr, hv⟩
        have := hany r hr
        rw [hv] at this
        exact absurd this (by decide)
  | true =>
    rw [hany] at h1
    subst h1
    simp only [if_pos rfl] at h2
    subst h2
    simp only [List.any_eq_true] at hany
    obtain ⟨r, hr, hv⟩ := hany
    constructor
    · constructor
      · intro h10; exact absurd h10 (by decide)
      · intro hall
        have := hall r hr
        rw [this] at hv
        exact absurd hv (by decide)
    · exact ⟨fun _ => ⟨r, hr, by simpa using hv⟩, fun _ => rfl⟩

/-- The empty batch environment (no schemas, no agents or skills
directories). -/
def envEmpty : Batch.BatchEnv := Batch.BatchEnv.mk fsEmpty yamlNone none none

/-- Witness for C2 at a concrete batch run. -/
theorem C2_exit_status_witness :
    Batch.main envEmpty = .ok ([], false, 0) ∧
    ((0 = 0 ↔ ∀ r ∈ ([] : List ValidationResult), r.valid = true) ∧
     (0 = 1 ↔ ∃ r ∈ ([] : List ValidationResult), r.valid = false)) :=
  ⟨rfl, C2_exit_status envEmpty [] false 0 rfl⟩

/-! C7: a failure while validating one file aborts the whole batch run
(the source has no handler around the per-file validators). -/

/-- Frontmatter content of the readable agent file of `env7`. -/
def agentContent7 : String := "---\nA\n---\n"

/-- A filesystem with an `agents` directory holding two entries: the
first unreadable (`read_text` raises), the second well-formed. -/
def fs7 : FS :=
  FS.mk (fun q => decide (q = Batch.agentsDir)) (fun _ => true)
    (fun _ => false)
    (fun q => if q = Batch.agentsDir then
        [["agents", "a.md"], ["agents", "b.md"]] else [])
    (fun q => if q = ["agents", "b.md"] then .ok agentContent7
      else .error "Permission denied")
    (fun _ => true) (fun _ => "")

/-- YAML stub for `env7`: a well-formed agent mapping. -/
def yaml7 : String → YamlResult :=
  yamlConst (Fm.dict [("name", PyVal.vstr "b"),
    ("description", PyVal.vstr "a description that is comfortably long")])

/-- Batch environment whose first agent file is unreadable. -/
def env7 : Batch.BatchEnv := Batch.BatchEnv.mk fs7 yaml7 none none

/-- C7 (evidence for the code bug): with an unreadable first agent file,
the batch run aborts with the uncaught `OSError` — it produces no
result list and never reaches the report/exit step — even though the
remaining agent file validates fine on its own (second conjunct). -/
theorem C7_unreadable_file_aborts_batch :
    Batch.main env7 = .error (PyExc.oserror "Permission denied") ∧
    Batch.validate_agent fs7 yaml7 ["agents", "b.md"] =
      .ok (ValidationResult.mk (pathStr ["agents", "b.md"]) true [] []) :=
  ⟨rfl, rfl⟩

/-! C8: malformed hook input. -/

/-- C8: when the hook's standard input cannot be parsed into the nested
write-target path, the hook prints the error object (to stderr) and
exits with code 2; the result does not depend on the filesystem or the
YAML parser at all — no validation logic runs and no filesystem access
(in particular no write) is attempted. -/
theorem C8_malformed_input_blocks_early :
    ∀ (fs : FS) (yaml : String → YamlResult) (e : String),
      Hook.main fs yaml (.error e) =
        .ok (Hook.HookOut.stderrMsg "block"
          ("Validator error: Failed to parse hook input: " ++ e), 2) :=
  fun _ _ _ => rfl

/-! C10: non-`SKILL.md` paths are skipped by the hook. -/

/-- C10: when the written file's base name is not `SKILL.md`, the hook's
`validate_skill` returns the empty error list for every filesystem (so
the file is never read — the path may not even exist) and the hook
emits the `continue` acknowledgment with exit code 0. -/
theorem C10_non_skill_path_allowed :
    ∀ (fs : FS) (yaml : String → YamlResult) (fp : String),
      pathName (pathOfString fp) ≠ "SKILL.md" →
      Hook.validate_skill fs yaml fp = .ok [] ∧
      Hook.main fs yaml (.ok fp) =
        .ok (Hook.HookOut.cont ("✅ Skill validation passed: "
          ++ pathName (pathOfString fp)), 0) := by
  intro fs yaml fp hname
  have hv : Hook.validate_skill fs yaml fp = .ok [] := by
    unfold Hook.validate_skill
    rw [if_pos hname]
  refine ⟨hv, ?_⟩
  unfold Hook.main
  dsimp only
  rw [hv]

/-- Witness for C10: a write to a (nonexistent) `README.md` path. -/
theorem C10_non_skill_path_allowed_witness :
    pathName (pathOfString "notes/README.md") ≠ "SKILL.md" ∧
    Hook.main fsEmpty yamlNone (.ok "notes/README.md") =
      .ok (Hook.HookOut.cont ("✅ Skill validation passed: "
        ++ pathName (pathOfString "notes/README.md")), 0) :=
  ⟨by decide,
   (C10_non_skill_path_allowed fsEmpty yamlNone "notes/README.md"
     (by decide)).2⟩

/-! C4: unterminated frontmatter. The batch error text contains the bare
substring `missing closing ---`; the hook's error text quotes the
delimiter, so the substring match fails there. -/

/-- An unterminated skill document (opens the delimiter, never closes). -/
def unterminatedContent : String := "---\nname: demo"

/-- Filesystem for the C4 counterexample: one unterminated `SKILL.md`. -/
def fs4 : FS := fsWith ["skills", "demo", "SKILL.md"] unterminatedContent

/-- C4 counterexample: on a concrete document that opens the delimiter
block and never closes it, the hook validator yields exactly one error —
but its text does not contain the substring `missing closing ---`
(it reads `missing closing ` followed by a quoted delimiter), refuting
the claim as stated for the hook call site. -/
theorem C4_counterexample_hook_text :
    Hook.validate_skill fs4 yamlNone "skills/demo/SKILL.md" =
      .ok [Hook.untermMsg] ∧
    strContains Hook.untermMsg "missing closing ---" = false :=
  ⟨rfl, by decide⟩

/-- C4 (amended): for every document that begins with the delimiter but
splits into fewer than three segments, each validator yields exactly one
error and attempts no field-level check; the batch error contains
`missing closing ---`, while the hook's single error is the distinct
quoted message `Invalid frontmatter structure (missing closing '---')`,
which does not contain that bare substring. -/
theorem C4_unterminated_single_error :
    ∀ (yaml : String → YamlResult) (content : String),
      strStartsWith content "---" = true →
      (pySplit content "---" 2).length < 3 →
      (Batch.extract_frontmatter yaml content =
        (none, some "Invalid frontmatter format (missing closing ---)")) ∧
      strContains "Invalid frontmatter format (missing closing ---)"
        "missing closing ---" = true ∧
      (∀ (fs : FS) (p : FPath), fs.readText p = .ok content →
        Batch.validate_agent fs yaml p =
          .ok (ValidationResult.mk (pathStr p) false
            ["Invalid frontmatter format (missing closing ---)"] [])) ∧
      (∀ (fs : FS) (d : FPath),
        fs.pathExists (d ++ ["SKILL.md"]) = true →
        fs.readText (d ++ ["SKILL.md"]) = .ok content →
        Batch.validate_skill fs yaml d =
          .ok (ValidationResult.mk (pathStr (d ++ ["SKILL.md"])) false
            ["Invalid frontmatter format (missing closing ---)"] [])) ∧
      (∀ (fs : FS) (fp : String),
        pathName (pathOfString fp) = "SKILL.md" →
        fs.readText (pathOfString fp) = .ok content →
        Hook.validate_skill fs yaml fp = .ok [Hook.untermMsg]) ∧
      strContains Hook.untermMsg "missing closing ---" = false := by
  intro yaml content hsw hlen
  have hex : Batch.extract_frontmatter yaml content =
      (none, some "Invalid frontmatter format (missing closing ---)") := by
    unfold Batch.extract_frontmatter
    rw [if_neg (not_not_intro hsw)]
    rw [if_pos hlen]
  refine ⟨hex, by decide, ?_, ?_, ?_, by decide⟩
  · intro fs p hread
    unfold Batch.validate_agent
    rw [hread]
    dsimp only
    rw [hex]
    rfl
  · intro fs d hexi hread
    unfold Batch.validate_skill
    dsimp only
    rw [if_neg (not_not_intro hexi)]
    rw [hread]
    dsimp only
    rw [hex]
    rfl
  · intro fs fp hname hread
    unfold Hook.validate_skill
    dsimp only
    rw [if_neg (not_not_intro hname)]
    rw [hread]
    dsimp only
    rw [if_neg (not_not_intro hsw)]
    rw [if_pos hlen]

/-- Witness for C4 (amended) at a concrete unterminated document. -/
theorem C4_unterminated_single_error_witness :
    strStartsWith unterminatedContent "---" = true ∧
    (pySplit unterminatedContent "---" 2).length < 3 ∧
    Batch.extract_frontmatter yamlNone unterminatedContent =
      (none, some "Invalid frontmatter format (missing closing ---)") :=
  ⟨by decide, by decide,
   (C4_unterminated_single_error yamlNone unterminatedContent
     (by decide) (by decide)).1⟩

/-! C5: empty or non-mapping frontmatter. The batch validators test
Python truthiness (`if not fm`), so only a falsy parse result is
classified as `Empty frontmatter`; a truthy non-mapping (a bare
non-empty string or list) slips through to the field checks. The hook
validator tests `isinstance(fm, dict)` and rejects every non-mapping. -/

/-- A well-delimited document (three split segments). -/
def delimitedContent : String := "---\nX\n---\n"

/-- Filesystem for the C5 counterexample: one agent file. -/
def fs5 : FS := fsWith ["agents", "a.md"] delimitedContent

/-- YAML stub returning a truthy non-mapping (a bare string). -/
def yaml5 : String → YamlResult := yamlConst (Fm.fstr "just text")

/-- C5 counterexample: with frontmatter parsing to the bare string
`just text` (a non-mapping), `validate_agent` does not produce the
single `Empty frontmatter` classification — it runs the field checks
and produces two missing-field errors. -/
theorem C5_counterexample_truthy_non_mapping :
    Batch.validate_agent fs5 yaml5 ["agents", "a.md"] =
      .ok (ValidationResult.mk (pathStr ["agents", "a.md"]) false
        ["Missing required field: name",
         "Missing required field: description"] []) ∧
    ["Missing required field: name", "Missing required field: description"]
      ≠ ["Empty frontmatter"] :=
  ⟨rfl, by decide⟩

/-- C5 (amended): a falsy parse result (`None`, empty string, empty
sequence, empty mapping) makes each batch validator fail with the single
error `Empty frontmatter` and no field check; the hook validator rejects
every non-mapping (truthy or not) with its single
`Frontmatter must be a YAML object/dictionary` error; but in the batch
validators a truthy non-mapping instead proceeds to the field checks
(see the counterexample). -/
theorem C5_empty_frontmatter_classification :
    (∀ (fs : FS) (yaml : String → YamlResult) (p : FPath)
        (content : String) (fm : Fm),
      fs.readText p = .ok content →
      Batch.extract_frontmatter yaml content = (some fm, none) →
      truthy fm = false →
      Batch.validate_agent fs yaml p =
        .ok (ValidationResult.mk (pathStr p) false ["Empty frontmatter"] [])) ∧
    (∀ (fs : FS) (yaml : String → YamlResult) (d : FPath)
        (content : String) (fm : Fm),
      fs.pathExists (d ++ ["SKILL.md"]) = true →
      fs.readText (d ++ ["SKILL.md"]) = .ok content →
      Batch.extract_frontmatter yaml content = (some fm, none) →
      truthy fm = false →
      Batch.validate_skill fs yaml d =
        .ok (ValidationResult.mk (pathStr (d ++ ["SKILL.md"])) false
          ["Empty frontmatter"] [])) ∧
    (∀ (fs : FS) (yaml : String → YamlResult) (fp content : String)
        (fm : Fm),
      pathName (pathOfString fp) = "SKILL.md" →
      fs.readText (pathOfString fp) = .ok content →
      strStartsWith content "---" = true →
      ¬ (pySplit content "---" 2).length < 3 →
      yaml ((pySplit content "---" 2).getD 1 "") = .ok fm →
      isDictB fm = false →
      Hook.validate_skill fs yaml fp =
        .ok ["Frontmatter must be a YAML object/dictionary"]) := by
  refine ⟨?_, ?_, ?_⟩
  · intro fs yaml p content fm hread hex htr
    unfold Batch.validate_agent
    rw [hread]
    dsimp only
    rw [hex]
    dsimp only [Option.getD]
    rw [if_pos htr]
    rfl
  · intro fs yaml d content fm hexi hread hex htr
    unfold Batch.validate_skill
    dsimp only
    rw [if_neg (not_not_intro hexi)]
    rw [hread]
    dsimp only
    rw [hex]
    dsimp only [Option.getD]
    rw [if_pos htr]
    rfl
  · intro fs yaml fp content fm hname hread hsw hlen hyaml hdict
    unfold Hook.validate_skill
    dsimp only
    rw [if_neg (not_not_intro hname)]
    rw [hread]
    dsimp only
    rw [if_neg (not_not_intro hsw)]
    rw [if_neg hlen]
    rw [hyaml]
    cases fm with
    | dict es => exact absurd hdict (by simp [isDictB])
    | fnone => rfl
    | fstr s => rfl
    | flist xs => rfl
    | fother t => rfl

/-- Witness for C5 (amended): an empty-sequence parse in the agent
validator, and a bare-string parse in the hook validator. -/
theorem C5_empty_frontmatter_classification_witness :
    Batch.validate_agent (fsWith ["agents", "b.md"] delimitedContent)
      (yamlConst (Fm.flist [])) ["agents", "b.md"] =
      .ok (ValidationResult.mk (pathStr ["agents", "b.md"]) false
        ["Empty frontmatter"] []) ∧
    Hook.validate_skill (fsWith ["skills", "x", "SKILL.md"] delimitedContent)
      yaml5 "skills/x/SKILL.md" =
      .ok ["Frontmatter must be a YAML object/dictionary"] :=
  ⟨C5_empty_frontmatter_classification.1
     (fsWith ["agents", "b.md"] delimitedContent) (yamlConst (Fm.flist []))
     ["agents", "b.md"] delimitedContent (Fm.flist []) rfl rfl rfl,
   C5_empty_frontmatter_classification.2.2
     (fsWith ["skills", "x", "SKILL.md"] delimitedContent) yaml5
     "skills/x/SKILL.md" delimitedContent (Fm.fstr "just text")
     (by decide) rfl (by decide) (by decide) rfl (by decide)⟩

/-! Machinery for the hook validator on well-formed mappings
(shared by C3, C6 and C9). -/

theorem forbiddenErrs_eq (fs : FS) (dir : FPath) (errs : List String) :
    Hook.forbiddenErrs fs dir errs =
      errs ++ (Hook.FORBIDDEN_FILES.filter
        (fun f => fs.pathExists (dir ++ [f]))).map Hook.forbiddenMsg := by
  have key : ∀ (l : List String) (acc : List String),
      l.foldl (Hook.forbiddenStep fs dir) acc =
        acc ++ (l.filter
          (fun f => fs.pathExists (dir ++ [f]))).map Hook.forbiddenMsg := by
    intro l
    induction l with
    | nil => intro acc; simp
    | cons f rest ih =>
      intro acc
      simp only [List.foldl_cons, List.filter_cons]
      cases hf : fs.pathExists (dir ++ [f]) with
      | false =>
        rw [show Hook.forbiddenStep fs dir acc f = acc from by
          simp [Hook.forbiddenStep, hf]]
        rw [ih acc]
        simp [hf]
      | true =>
        rw [show Hook.forbiddenStep fs dir acc f =
            acc ++ [Hook.forbiddenMsg f] from by
          simp [Hook.forbiddenStep, hf]]
        rw [ih (acc ++ [Hook.forbiddenMsg f])]
        simp [hf]
  exact key _ errs

theorem requiredStep_mem (entries : List (String × PyVal))
    (acc : List String) (field x : String) (hx : x ∈ acc) :
    x ∈ Hook.requiredStep entries acc field := by
  unfold Hook.requiredStep
  split
  · exact List.mem_append_left _ hx
  · split
    · exact List.mem_append_left _ hx
    · exact hx

theorem requiredFieldErrs_nil (entries : List (String × PyVal))
    (nm s : String)
    (hn : entries.lookup "name" = some (PyVal.vstr nm))
    (hs : entries.lookup "description" = some (PyVal.vstr s))
    (hnm : nm ≠ "") (hse : s ≠ "") :
    Hook.requiredFieldErrs entries = [] := by
  unfold Hook.requiredFieldErrs Hook.REQUIRED_FIELDS
  simp only [List.foldl_cons, List.foldl_nil]
  unfold Hook.requiredStep
  rw [hn, hs]
  simp [truthyVal, hnm, hse]

theorem requiredFieldErrs_empty_name (entries : List (String × PyVal))
    (hn : entries.lookup "name" = some (PyVal.vstr "")) :
    Hook.emptyFieldMsg "name" ∈ Hook.requiredFieldErrs entries := by
  unfold Hook.requiredFieldErrs Hook.REQUIRED_FIELDS
  simp only [List.foldl_cons, List.foldl_nil]
  apply requiredStep_mem
  unfold Hook.requiredStep
  rw [hn]
  simp [truthyVal]

theorem hookDescCheck_str (entries : List (String × PyVal)) (s : String)
    (errs : List String)
    (hs : entries.lookup "description" = some (PyVal.vstr s)) :
    Hook.hookDescCheck entries errs =
      .ok (if s.length < 50 then errs ++ [Hook.tooShortMsg s.length]
        else errs) := by
  unfold Hook.hookDescCheck
  rw [hs]
  rfl

/-- Evaluation of the hook validator once the document is well-delimited
and its frontmatter parses to a mapping. -/
theorem hook_validate_skill_dict (fs : FS) (yaml : String → YamlResult)
    (fp content : String) (entries : List (String × PyVal))
    (hname : pathName (pathOfString fp) = "SKILL.md")
    (hread : fs.readText (pathOfString fp) = .ok content)
    (hsw : strStartsWith content "---" = true)
    (hlen : ¬ (pySplit content "---" 2).length < 3)
    (hyaml : yaml ((pySplit content "---" 2).getD 1 "") =
      .ok (Fm.dict entries)) :
    Hook.validate_skill fs yaml fp =
      match Hook.hookDescCheck entries (Hook.requiredFieldErrs entries) with
      | .error ex => .error ex
      | .ok errs2 =>
        .ok (Hook.forbiddenErrs fs (pathOfString fp).dropLast errs2) := by
  unfold Hook.validate_skill
  dsimp only
  rw [if_neg (not_not_intro hname), hread]
  dsimp only
  rw [if_neg (not_not_intro hsw), if_neg hlen, hyaml]

/-- Evaluation of the hook validator on a fully valid frontmatter
mapping: the error list is exactly one forbidden-file error per
forbidden file present in the skill directory. -/
theorem hook_validate_skill_clean (fs : FS) (yaml : String → YamlResult)
    (fp content : String) (entries : List (String × PyVal)) (nm s : String)
    (hname : pathName (pathOfString fp) = "SKILL.md")
    (hread : fs.readText (pathOfString fp) = .ok content)
    (hsw : strStartsWith content "---" = true)
    (hlen : ¬ (pySplit content "---" 2).length < 3)
    (hyaml : yaml ((pySplit content "---" 2).getD 1 "") =
      .ok (Fm.dict entries))
    (hn : entries.lookup "name" = some (PyVal.vstr nm)) (hnm : nm ≠ "")
    (hs : entries.lookup "description" = some (PyVal.vstr s)) (hse : s ≠ "")
    (h50 : 50 ≤ s.length) :
    Hook.validate_skill fs yaml fp =
      .ok ((Hook.FORBIDDEN_FILES.filter (fun f =>
        fs.pathExists ((pathOfString fp).dropLast ++ [f]))).map
          Hook.forbiddenMsg) := by
  rw [hook_validate_skill_dict fs yaml fp content entries hname hread hsw
    hlen hyaml]
  rw [requiredFieldErrs_nil entries nm s hn hs hnm hse]
  rw [hookDescCheck_str entries s [] hs]
  rw [if_neg (by omega : ¬ s.length < 50)]
  dsimp only
  rw [forbiddenErrs_eq]
  simp

/-- C3: for a hook invocation on a write to a `SKILL.md` file with valid
frontmatter (a mapping with non-empty `name` and a `description` of at
least 50 characters): the validator's error list is exactly one
forbidden-file error per forbidden file present next to the manifest;
if `README.md` (a member of the forbidden list) is present the hook
emits the blocking decision and exits with code 2, and if no forbidden
file is present it emits `continue` and exits with code 0. -/
theorem C3_forbidden_files_gate :
    ∀ (fs : FS) (yaml : String → YamlResult) (fp content : String)
      (entries : List (String × PyVal)) (nm s : String),
      pathName (pathOfString fp) = "SKILL.md" →
      fs.readText (pathOfString fp) = .ok content →
      strStartsWith content "---" = true →
      ¬ (pySplit content "---" 2).length < 3 →
      yaml ((pySplit content "---" 2).getD 1 "") = .ok (Fm.dict entries) →
      entries.lookup "name" = some (PyVal.vstr nm) → nm ≠ "" →
      entries.lookup "description" = some (PyVal.vstr s) → s ≠ "" →
      50 ≤ s.length →
      (Hook.validate_skill fs yaml fp =
        .ok ((Hook.FORBIDDEN_FILES.filter (fun f =>
          fs.pathExists ((pathOfString fp).dropLast ++ [f]))).map
            Hook.forbiddenMsg)) ∧
      (fs.pathExists ((pathOfString fp).dropLast ++ ["README.md"]) = true →
        Hook.main fs yaml (.ok fp) =
          .ok (Hook.HookOut.block
            ("Skill validation failed for " ++ pathName (pathOfString fp))
            "PostToolUse"
            (Hook.hookContext fp ((Hook.FORBIDDEN_FILES.filter (fun f =>
              fs.pathExists ((pathOfString fp).dropLast ++ [f]))).map
                Hook.forbiddenMsg)), 2)) ∧
      ((∀ f ∈ Hook.FORBIDDEN_FILES,
          fs.pathExists ((pathOfString fp).dropLast ++ [f]) = false) →
        Hook.main fs yaml (.ok fp) =
          .ok (Hook.HookOut.cont ("✅ Skill validation passed: "
            ++ pathName (pathOfString fp)), 0)) := by
  intro fs yaml fp content entries nm s hname hread hsw hlen hyaml hn hnm
    hs hse h50
  have hv := hook_validate_skill_clean fs yaml fp content entries nm s
    hname hread hsw hlen hyaml hn hnm hs hse h50
  refine ⟨hv, ?_, ?_⟩
  · intro hR
    have hmem : "README.md" ∈ Hook.FORBIDDEN_FILES.filter (fun f =>
        fs.pathExists ((pathOfString fp).dropLast ++ [f])) := by
      rw [List.mem_filter]
      exact ⟨by simp [Hook.FORBIDDEN_FILES], by simpa using hR⟩
    have hmemE : Hook.forbiddenMsg "README.md" ∈
        (Hook.FORBIDDEN_FILES.filter (fun f =>
          fs.pathExists ((pathOfString fp).dropLast ++ [f]))).map
            Hook.forbiddenMsg := List.mem_map_of_mem _ hmem
    unfold Hook.main
    dsimp only
    rw [hv]
    cases hE : (Hook.FORBIDDEN_FILES.filter (fun f =>
        fs.pathExists ((pathOfString fp).dropLast ++ [f]))).map
          Hook.forbiddenMsg with
    | nil => rw [hE] at hmemE; exact absurd hmemE (List.not_mem_nil _)
    | cons a as => rfl
  · intro habs
    have hfil : Hook.FORBIDDEN_FILES.filter (fun f =>
        fs.pathExists ((pathOfString fp).dropLast ++ [f])) = [] := by
      rw [List.filter_eq_nil_iff]
      intro f hf
      simp [habs f hf]
    unfold Hook.main
    dsimp only
    rw [hv, hfil]
    rfl

/-- Frontmatter content of the C3 witness skill document. -/
def skillContent3 : String := "---\nA\n---\nB"

/-- A description of 71 characters for the witness mappings. -/
def longDesc : String :=
  "This description is long enough to satisfy the fifty character minimum."

/-- Frontmatter mapping of the C3 witness. -/
def entries3 : List (String × PyVal) :=
  [("name", PyVal.vstr "demo"), ("description", PyVal.vstr longDesc)]

/-- YAML stub for the C3 witness. -/
def yaml3 : String → YamlResult := yamlConst (Fm.dict entries3)

/-- Filesystem of the C3 witness, blocking case: the skill directory
holds `SKILL.md` and a forbidden `README.md`. -/
def fs3a : FS :=
  FS.mk
    (fun q => decide (q = ["skills", "demo", "SKILL.md"] ∨
      q = ["skills", "demo", "README.md"]))
    (fun _ => false) (fun _ => false) (fun _ => [])
    (fun q => if q = ["skills", "demo", "SKILL.md"] then .ok skillContent3
      else .error "No such file or directory")
    (fun _ => true) (fun _ => "")

/-- Filesystem of the C3 witness, allow case: only `SKILL.md`. -/
def fs3b : FS := fsWith ["skills", "demo", "SKILL.md"] skillContent3

/-- Witness for C3: with `README.md` present the hook blocks with exit
code 2 and exactly the one forbidden-file error; with no forbidden file
it continues with exit code 0. -/
theorem C3_forbidden_files_gate_witness :
    Hook.main fs3a yaml3 (.ok "skills/demo/SKILL.md") =
      .ok (Hook.HookOut.block
        ("Skill validation failed for "
          ++ pathName (pathOfString "skills/demo/SKILL.md"))
        "PostToolUse"
        (Hook.hookContext "skills/demo/SKILL.md"
          [Hook.forbiddenMsg "README.md"]), 2) ∧
    Hook.main fs3b yaml3 (.ok "skills/demo/SKILL.md") =
      .ok (Hook.HookOut.cont ("✅ Skill validation passed: "
        ++ pathName (pathOfString "skills/demo/SKILL.md")), 0) := by
  constructor
  · have h := (C3_forbidden_files_gate fs3a yaml3 "skills/demo/SKILL.md"
      skillContent3 entries3 "demo" longDesc (by decide) rfl (by decide)
      (by decide) rfl rfl (by decide) rfl (by decide) (by decide)).2.1
      (by decide)
    exact h
  · exact (C3_forbidden_files_gate fs3b yaml3 "skills/demo/SKILL.md"
      skillContent3 entries3 "demo" longDesc (by decide) rfl (by decide)
      (by decide) rfl rfl (by decide) rfl (by decide) (by decide)).2.2
      (by decide)

/-! Machinery for C6: boundary behavior of the three description-length
thresholds (20 agents, 30 batch skills, 50 hook skills). -/

theorem lookup_some_ne_nil (l : List (String × PyVal)) (k : String)
    (v : PyVal) (h : l.lookup k = some v) : l ≠ [] := by
  intro hl
  rw [hl] at h
  exact Option.noConfusion h

theorem truthy_dict_ne (entries : List (String × PyVal))
    (hne : entries ≠ []) : truthy (Fm.dict entries) = true := by
  cases entries with
  | nil => exact absurd rfl hne
  | cons a l => rfl

theorem agentDescCheck_str (entries : List (String × PyVal)) (s : String)
    (r : ValidationResult)
    (hs : entries.lookup "description" = some (PyVal.vstr s)) :
    Batch.agentDescCheck (Fm.dict entries) r =
      .ok (if s.length < 20 then addWarning r Batch.shortDesc20 else r) := by
  unfold Batch.agentDescCheck
  dsimp only [pyContains, pyGet]
  rw [hs]
  rfl

theorem agentModelCheck_none (entries : List (String × PyVal))
    (r : ValidationResult) (hmod : entries.lookup "model" = none) :
    Batch.agentModelCheck (Fm.dict entries) r = .ok r := by
  unfold Batch.agentModelCheck
  dsimp only [pyContains]
  rw [hmod]
  rfl

/-- Evaluation of `validate_agent` on a mapping with both required
fields present (description a string) and no `model` key. -/
theorem validate_agent_clean (fs : FS) (yaml : String → YamlResult)
    (p : FPath) (content : String) (entries : List (String × PyVal))
    (v : PyVal) (s : String)
    (hread : fs.readText p = .ok content)
    (hex : Batch.extract_frontmatter yaml content =
      (some (Fm.dict entries), none))
    (hn : entries.lookup "name" = some v)
    (hs : entries.lookup "description" = some (PyVal.vstr s))
    (hmod : entries.lookup "model" = none) :
    Batch.validate_agent fs yaml p =
      .ok (ValidationResult.mk (pathStr p) true []
        (if s.length < 20 then [Batch.shortDesc20] else [])) := by
  unfold Batch.validate_agent
  rw [hread]
  dsimp only
  rw [hex]
  dsimp only [Option.getD]
  rw [if_neg (by simp [truthy_dict_ne _ (lookup_some_ne_nil _ _ _ hn)])]
  dsimp only [pyContains]
  rw [hn]
  try dsimp only
  rw [agentDescCheck_str entries s _ hs]
  dsimp only
  rw [agentModelCheck_none entries _ hmod]
  by_cases h20 : s.length < 20
  · rw [if_pos h20, if_pos h20]; rfl
  · rw [if_neg h20, if_neg h20]; rfl

theorem skillNameCheck_eq_dir (entries : List (String × PyVal))
    (dn : String) (r : ValidationResult)
    (hn : entries.lookup "name" = some (PyVal.vstr dn)) :
    Batch.skillNameCheck (Fm.dict entries) dn r = .ok r := by
  unfold Batch.skillNameCheck
  dsimp only [pyContains, pyGetItem]
  rw [hn]
  try dsimp only
  simp [pyEqStr]

theorem skillDescCheck_str (entries : List (String × PyVal)) (s : String)
    (r : ValidationResult)
    (hs : entries.lookup "description" = some (PyVal.vstr s)) :
    Batch.skillDescCheck (Fm.dict entries) r =
      .ok (if s.length < 30 then addWarning r Batch.shortDesc30 else r) := by
  unfold Batch.skillDescCheck
  dsimp only [pyContains, pyGet]
  rw [hs]
  rfl

theorem check_skill_references_empty_body (fs : FS) (d : FPath)
    (r : ValidationResult) : Batch.check_skill_references fs d "" r = r := by
  unfold Batch.check_skill_references
  split
  · rfl
  · rfl

theorem check_skill_scripts_no_dir (fs : FS) (d : FPath)
    (r : ValidationResult) (h : fs.pathExists (d ++ ["scripts"]) = false) :
    Batch.check_skill_scripts fs d r = .ok r := by
  unfold Batch.check_skill_scripts
  dsimp only
  rw [if_pos (by simp [h])]

/-- Evaluation of the batch `validate_skill` on a well-formed skill:
mapping frontmatter, `name` equal to the directory name, a string
description, an empty body and no `scripts` directory. -/
theorem validate_skill_clean (fs : FS) (yaml : String → YamlResult)
    (d : FPath) (content : String) (entries : List (String × PyVal))
    (s : String)
    (hexi : fs.pathExists (d ++ ["SKILL.md"]) = true)
    (hread : fs.readText (d ++ ["SKILL.md"]) = .ok content)
    (hex : Batch.extract_frontmatter yaml content =
      (some (Fm.dict entries), none))
    (hn : entries.lookup "name" = some (PyVal.vstr (pathName d)))
    (hs : entries.lookup "description" = some (PyVal.vstr s))
    (hsw : strStartsWith content "---" = true)
    (hbody : (pySplit content "---" 2).getD 2 "" = "")
    (hscr : fs.pathExists (d ++ ["scripts"]) = false) :
    Batch.validate_skill fs yaml d =
      .ok (ValidationResult.mk (pathStr (d ++ ["SKILL.md"])) true []
        (if s.length < 30 then [Batch.shortDesc30] else [])) := by
  unfold Batch.validate_skill
  dsimp only
  rw [if_neg (not_not_intro hexi), hread]
  dsimp only
  rw [hex]
  dsimp only [Option.getD]
  rw [if_neg (by simp [truthy_dict_ne _ (lookup_some_ne_nil _ _ _ hn)])]
  rw [skillNameCheck_eq_dir entries (pathName d) _ hn]
  dsimp only
  rw [skillDescCheck_str entries s _ hs]
  dsimp only
  rw [if_pos hsw, hbody]
  rw [check_skill_references_empty_body]
  rw [check_skill_scripts_no_dir fs d _ hscr]
  by_cases h30 : s.length < 30
  · rw [if_pos h30, if_pos h30]; rfl
  · rw [if_neg h30, if_neg h30]

/-- C6: the three description-length thresholds. For a frontmatter
mapping whose description is the string `s`: the agent validator emits
its short-description warning exactly when `s.length < 20` (so length 19
warns and length 20 does not); the batch skill validator exactly when
`s.length < 30` (29 warns, 30 does not); the hook validator emits its
length-bearing too-short error exactly when `s.length < 50` (49 errors,
50 does not). -/
theorem C6_description_thresholds :
    (∀ (fs : FS) (yaml : String → YamlResult) (p : FPath)
        (content : String) (entries : List (String × PyVal)) (v : PyVal)
        (s : String),
      fs.readText p = .ok content →
      Batch.extract_frontmatter yaml content =
        (some (Fm.dict entries), none) →
      entries.lookup "name" = some v →
      entries.lookup "description" = some (PyVal.vstr s) →
      entries.lookup "model" = none →
      Batch.validate_agent fs yaml p =
        .ok (ValidationResult.mk (pathStr p) true []
          (if s.length < 20 then [Batch.shortDesc20] else []))) ∧
    (∀ (fs : FS) (yaml : String → YamlResult) (d : FPath)
        (content : String) (entries : List (String × PyVal)) (s : String),
      fs.pathExists (d ++ ["SKILL.md"]) = true →
      fs.readText (d ++ ["SKILL.md"]) = .ok content →
      Batch.extract_frontmatter yaml content =
        (some (Fm.dict entries), none) →
      entries.lookup "name" = some (PyVal.vstr (pathName d)) →
      entries.lookup "description" = some (PyVal.vstr s) →
      strStartsWith content "---" = true →
      (pySplit content "---" 2).getD 2 "" = "" →
      fs.pathExists (d ++ ["scripts"]) = false →
      Batch.validate_skill fs yaml d =
        .ok (ValidationResult.mk (pathStr (d ++ ["SKILL.md"])) true []
          (if s.length < 30 then [Batch.shortDesc30] else []))) ∧
    (∀ (fs : FS) (yaml : String → YamlResult) (fp content : String)
        (entries : List (String × PyVal)) (nm s : String),
      pathName (pathOfString fp) = "SKILL.md" →
      fs.readText (pathOfString fp) = .ok content →
      strStartsWith content "---" = true →
      ¬ (pySplit content "---" 2).length < 3 →
      yaml ((pySplit content "---" 2).getD 1 "") = .ok (Fm.dict entries) →
      entries.lookup "name" = some (PyVal.vstr nm) → nm ≠ "" →
      entries.lookup "description" = some (PyVal.vstr s) → s ≠ "" →
      (∀ f ∈ Hook.FORBIDDEN_FILES,
        fs.pathExists ((pathOfString fp).dropLast ++ [f]) = false) →
      Hook.validate_skill fs yaml fp =
        .ok (if s.length < 50 then [Hook.tooShortMsg s.length] else [])) := by
  refine ⟨?_, ?_, ?_⟩
  · intro fs yaml p content entries v s hread hex hn hs hmod
    exact validate_agent_clean fs yaml p content entries v s hread hex hn
      hs hmod
  · intro fs yaml d content entries s hexi hread hex hn hs hsw hbody hscr
    exact validate_skill_clean fs yaml d content entries s hexi hread hex
      hn hs hsw hbody hscr
  · intro fs yaml fp content entries nm s hname hread hsw hlen hyaml hn
      hnm hs hse habs
    rw [hook_validate_skill_dict fs yaml fp content entries hname hread
      hsw hlen hyaml]
    rw [requiredFieldErrs_nil entries nm s hn hs hnm hse]
    rw [hookDescCheck_str entries s [] hs]
    have hfil : Hook.FORBIDDEN_FILES.filter (fun f =>
        fs.pathExists ((pathOfString fp).dropLast ++ [f])) = [] := by
      rw [List.filter_eq_nil_iff]
      intro f hf
      simp [habs f hf]
    dsimp only
    rw [forbiddenErrs_eq, hfil]
    by_cases h50 : s.length < 50
    · rw [if_pos h50, if_pos h50]; simp
    · rw [if_neg h50, if_neg h50]; simp

/-- A 19-character description. -/
def desc19 : String := "aaaaaaaaaaaaaaaaaaa"

/-- A 30-character description. -/
def desc30 : String := "aaaaaaaaaaaaaaaaaaaaaaaaaaaaaa"

/-- A 49-character description. -/
def desc49 : String :=
  "aaaaaaaaaaaaaaaaaaaaaaaaaaaaaaaaaaaaaaaaaaaaaaaaa"

/-- A well-delimited document with an empty body. -/
def skillContent6 : String := "---\nX\n---"

/-- Witness for C6 at the three boundaries: agent length 19 warns,
batch skill length 30 does not warn, hook length 49 errors. -/
theorem C6_description_thresholds_witness :
    Batch.validate_agent (fsWith ["agents", "w.md"] delimitedContent)
      (yamlConst (Fm.dict [("name", PyVal.vstr "w"),
        ("description", PyVal.vstr desc19)])) ["agents", "w.md"] =
      .ok (ValidationResult.mk (pathStr ["agents", "w.md"]) true []
        [Batch.shortDesc20]) ∧
    Batch.validate_skill
      (fsWith ["skills", "wsk", "SKILL.md"] skillContent6)
      (yamlConst (Fm.dict [("name", PyVal.vstr "wsk"),
        ("description", PyVal.vstr desc30)])) ["skills", "wsk"] =
      .ok (ValidationResult.mk (pathStr ["skills", "wsk", "SKILL.md"])
        true [] []) ∧
    Hook.validate_skill (fsWith ["skills", "wh", "SKILL.md"] skillContent6)
      (yamlConst (Fm.dict [("name", PyVal.vstr "wh"),
        ("description", PyVal.vstr desc49)])) "skills/wh/SKILL.md" =
      .ok [Hook.tooShortMsg 49] := by
  refine ⟨?_, ?_, ?_⟩
  · exact C6_description_thresholds.1
      (fsWith ["agents", "w.md"] delimitedContent)
      (yamlConst (Fm.dict [("name", PyVal.vstr "w"),
        ("description", PyVal.vstr desc19)]))
      ["agents", "w.md"] delimitedContent
      [("name", PyVal.vstr "w"), ("description", PyVal.vstr desc19)]
      (PyVal.vstr "w") desc19 rfl rfl rfl rfl rfl
  · exact C6_description_thresholds.2.1
      (fsWith ["skills", "wsk", "SKILL.md"] skillContent6)
      (yamlConst (Fm.dict [("name", PyVal.vstr "wsk"),
        ("description", PyVal.vstr desc30)]))
      ["skills", "wsk"] skillContent6
      [("name", PyVal.vstr "wsk"), ("description", PyVal.vstr desc30)]
      desc30 (by decide) rfl rfl (by decide) rfl (by decide) (by decide)
      (by decide)
  · exact C6_description_thresholds.2.2
      (fsWith ["skills", "wh", "SKILL.md"] skillContent6)
      (yamlConst (Fm.dict [("name", PyVal.vstr "wh"),
        ("description", PyVal.vstr desc49)]))
      "skills/wh/SKILL.md" skillContent6
      [("name", PyVal.vstr "wh"), ("description", PyVal.vstr desc49)]
      "wh" desc49 (by decide) rfl (by decide) (by decide) rfl rfl
      (by decide) rfl (by decide) (by decide)

/-! Machinery for C9: present-but-empty required fields. -/

theorem skillNameCheck_mismatch (entries : List (String × PyVal))
    (dn : String) (r : ValidationResult) (v : PyVal)
    (hn : entries.lookup "name" = some v)
    (hvne : pyEqStr v dn = false) :
    Batch.skillNameCheck (Fm.dict entries) dn r =
      .ok (addWarning r (Batch.nameMismatchMsg v dn)) := by
  unfold Batch.skillNameCheck
  dsimp only [pyContains, pyGetItem]
  rw [hn]
  try dsimp only
  simp [hvne]

theorem hookDescCheck_mono (entries : List (String × PyVal))
    (errs1 errs2 : List String) (x : String)
    (h : Hook.hookDescCheck entries errs1 = .ok errs2) (hx : x ∈ errs1) :
    x ∈ errs2 := by
  unfold Hook.hookDescCheck at h
  split at h
  · cases h; exact hx
  · split at h
    · exact Except.noConfusion h
    · cases h
      split
      · exact List.mem_append_left _ hx
      · exact hx

/-- C9: the batch required-field check is membership-only. A frontmatter
mapping binding `name` and `description` to the empty string yields no
`Missing required field` error in either batch validator: the agent
validator returns `valid = true` with empty errors and only the
short-description warning, and the batch skill validator returns
`valid = true` with empty errors and only the name-mismatch and
short-description warnings. The hook validator, by contrast, emits a
`Field 'name' cannot be empty` error for the same mapping. -/
theorem C9_membership_only_required_fields :
    (∀ (fs : FS) (yaml : String → YamlResult) (p : FPath)
        (content : String) (entries : List (String × PyVal)),
      fs.readText p = .ok content →
      Batch.extract_frontmatter yaml content =
        (some (Fm.dict entries), none) →
      entries.lookup "name" = some (PyVal.vstr "") →
      entries.lookup "description" = some (PyVal.vstr "") →
      entries.lookup "model" = none →
      Batch.validate_agent fs yaml p =
        .ok (ValidationResult.mk (pathStr p) true [] [Batch.shortDesc20])) ∧
    (∀ (fs : FS) (yaml : String → YamlResult) (d : FPath)
        (content : String) (entries : List (String × PyVal)),
      fs.pathExists (d ++ ["SKILL.md"]) = true →
      fs.readText (d ++ ["SKILL.md"]) = .ok content →
      Batch.extract_frontmatter yaml content =
        (some (Fm.dict entries), none) →
      entries.lookup "name" = some (PyVal.vstr "") →
      entries.lookup "description" = some (PyVal.vstr "") →
      pathName d ≠ "" →
      strStartsWith content "---" = true →
      (pySplit content "---" 2).getD 2 "" = "" →
      fs.pathExists (d ++ ["scripts"]) = false →
      Batch.validate_skill fs yaml d =
        .ok (ValidationResult.mk (pathStr (d ++ ["SKILL.md"])) true []
          [Batch.nameMismatchMsg (PyVal.vstr "") (pathName d),
           Batch.shortDesc30])) ∧
    (∀ (fs : FS) (yaml : String → YamlResult) (fp content : String)
        (entries : List (String × PyVal)) (errs : List String),
      pathName (pathOfString fp) = "SKILL.md" →
      fs.readText (pathOfString fp) = .ok content →
      strStartsWith content "---" = true →
      ¬ (pySplit content "---" 2).length < 3 →
      yaml ((pySplit content "---" 2).getD 1 "") = .ok (Fm.dict entries) →
      entries.lookup "name" = some (PyVal.vstr "") →
      Hook.validate_skill fs yaml fp = .ok errs →
      Hook.emptyFieldMsg "name" ∈ errs) := by
  refine ⟨?_, ?_, ?_⟩
  · intro fs yaml p content entries hread hex hn hs hmod
    exact validate_agent_clean fs yaml p content entries (PyVal.vstr "")
      "" hread hex hn hs hmod
  · intro fs yaml d content entries hexi hread hex hn hs hdn hsw hbody hscr
    unfold Batch.validate_skill
    dsimp only
    rw [if_neg (not_not_intro hexi), hread]
    dsimp only
    rw [hex]
    dsimp only [Option.getD]
    rw [if_neg (by simp [truthy_dict_ne _ (lookup_some_ne_nil _ _ _ hn)])]
    rw [skillNameCheck_mismatch entries (pathName d) _ (PyVal.vstr "") hn
      (by simp [pyEqStr]; exact fun h => hdn h.symm)]
    dsimp only
    rw [skillDescCheck_str entries "" _ hs]
    dsimp only
    rw [if_pos (by decide : ("" : String).length < 30)]
    rw [if_pos hsw, hbody]
    rw [check_skill_references_empty_body]
    rw [check_skill_scripts_no_dir fs d _ hscr]
    rfl
  · intro fs yaml fp content entries errs hname hread hsw hlen hyaml hn h
    rw [hook_validate_skill_dict fs yaml fp content entries hname hread
      hsw hlen hyaml] at h
    split at h
    · exact Except.noConfusion h
    · rename_i errs2 heq
      cases h
      rw [forbiddenErrs_eq]
      exact List.mem_append_left _
        (hookDescCheck_mono entries _ errs2 _ heq
          (requiredFieldErrs_empty_name entries hn))

/-- Frontmatter mapping with both required fields present but empty. -/
def entriesEmpty : List (String × PyVal) :=
  [("name", PyVal.vstr ""), ("description", PyVal.vstr "")]

/-- Witness for C9: the same empty-field mapping is accepted (with
warnings only) by both batch validators and rejected by the hook. -/
theorem C9_membership_only_required_fields_witness :
    Batch.validate_agent (fsWith ["agents", "e.md"] delimitedContent)
      (yamlConst (Fm.dict entriesEmpty)) ["agents", "e.md"] =
      .ok (ValidationResult.mk (pathStr ["agents", "e.md"]) true []
        [Batch.shortDesc20]) ∧
    Batch.validate_skill (fsWith ["skills", "esk", "SKILL.md"] skillContent6)
      (yamlConst (Fm.dict entriesEmpty)) ["skills", "esk"] =
      .ok (ValidationResult.mk (pathStr ["skills", "esk", "SKILL.md"])
        true []
        [Batch.nameMismatchMsg (PyVal.vstr "") "esk", Batch.shortDesc30]) ∧
    (Hook.validate_skill (fsWith ["skills", "eh", "SKILL.md"] skillContent6)
      (yamlConst (Fm.dict entriesEmpty)) "skills/eh/SKILL.md" =
      .ok [Hook.emptyFieldMsg "name", Hook.emptyFieldMsg "description",
        Hook.tooShortMsg 0] ∧
     Hook.emptyFieldMsg "name" ∈
       [Hook.emptyFieldMsg "name", Hook.emptyFieldMsg "description",
        Hook.tooShortMsg 0]) := by
  refine ⟨?_, ?_, rfl, ?_⟩
  · exact C9_membership_only_required_fields.1
      (fsWith ["agents", "e.md"] delimitedContent)
      (yamlConst (Fm.dict entriesEmpty)) ["agents", "e.md"]
      delimitedContent entriesEmpty rfl rfl rfl rfl rfl
  · exact C9_membership_only_required_fields.2.1
      (fsWith ["skills", "esk", "SKILL.md"] skillContent6)
      (yamlConst (Fm.dict entriesEmpty)) ["skills", "esk"] skillContent6
      entriesEmpty (by decide) rfl rfl rfl rfl (by decide) (by decide)
      (by decide) (by decide)
  · exact C9_membership_only_required_fields.2.2
      (fsWith ["skills", "eh", "SKILL.md"] skillContent6)
      (yamlConst (Fm.dict entriesEmpty)) "skills/eh/SKILL.md"
      skillContent6 entriesEmpty
      [Hook.emptyFieldMsg "name", Hook.emptyFieldMsg "description",
        Hook.tooShortMsg 0]
      (by decide) rfl (by decide) (by decide) rfl rfl rfl
